import Mathlib

/-!
Verification of the newdoc orchestrator (`src/lib.rs`) against its design
specification.

The file shallowly embeds the Rust source:

* `Options`, `Options.new`, `Verbosity` — translated from `src/lib.rs` lines 16-61.
* `run`, `process_module_type` — translated from `src/lib.rs` lines 63-139.
  The `run` function performs I/O through `Module::write_file`; the embedding
  makes the success or failure of each write explicit through a `writeOk`
  oracle parameter, and records the sequence of successful writes and the
  validation reports in a `RunResult`.  The call to
  `logging::initialize_logger` is out of scope per the specification
  (logging is an external collaborator) and is modelled as always succeeding.
  The `unimplemented!` panic and the `assert!` panic are modelled as
  distinguished `RunError` values.
* The modules `module.rs`, `templating.rs`, `validation.rs` and `write.rs`
  are not part of the provided source tree; their behaviour is modelled from
  the specification, as marked on each such definition.
-/

namespace Newdoc

/-- Translated from `src/lib.rs`: the five module-type variants.
Spec §3: a closed enumeration with five variants. -/
inductive ModuleType where
  | Assembly
  | Concept
  | Procedure
  | Reference
  | Snippet
deriving DecidableEq, Repr

/-- Translated from `src/lib.rs` lines 56-61. -/
inductive Verbosity where
  | Verbose
  | Default
  | Quiet
deriving DecidableEq, Repr

/-- Translated from `src/lib.rs` lines 16-22: the resolved option set. -/
structure Options where
  comments : Bool
  prefixes : Bool
  examples : Bool
  target_dir : String
  verbosity : Verbosity
deriving DecidableEq, Repr

/-- The parsed command invocation as the core consumes it (`clap::ArgMatches`).
Spec §6: five repeatable module-type options, `include-in` at most once,
repeatable `validate`, three boolean no-flags, `verbose` and `quiet`,
optional `target-dir`.  A field is `none` when the option is absent from the
invocation; `values_of` on a present option yields the listed values in
command-line order. -/
structure ArgMatches where
  verbose : Bool
  quiet : Bool
  noComments : Bool
  noPrefixes : Bool
  noExamples : Bool
  targetDir : Option String
  assembly : Option (List String)
  concept : Option (List String)
  procedure : Option (List String)
  reference : Option (List String)
  snippet : Option (List String)
  includeIn : Option String
  validate : Option (List String)

/-- `ArgMatches::values_of` for the argument names `run` queries with it. -/
def ArgMatches.values_of (args : ArgMatches) (s : String) : Option (List String) :=
  if s = "assembly" then args.assembly
  else if s = "concept" then args.concept
  else if s = "procedure" then args.procedure
  else if s = "reference" then args.reference
  else if s = "snippet" then args.snippet
  else if s = "validate" then args.validate
  else none

/-- Translated from `src/lib.rs` lines 26-53 (`Options::new`). -/
def Options.new (args : ArgMatches) : Options :=
  let verbosity :=
    if args.verbose then Verbosity.Verbose
    else if args.quiet then Verbosity.Quiet
    else Verbosity.Default
  { comments := !args.noComments
    prefixes := !args.noPrefixes
    examples := !args.noExamples
    target_dir :=
      match args.targetDir with
      | some dir => dir
      | none => "."
    verbosity := verbosity }

/-- Modelled from the spec: the title-to-id converter of `module.rs`, which is
not under `src/`.  Spec §4.1: lower-case the title, replace every run of
whitespace and non-alphanumeric characters with a single word separator, and
strip leading and trailing separators.  Helper: collapse runs of the
separator character to a single occurrence. -/
def squeezeSeparators : List Char → List Char
  | [] => []
  | [c] => [c]
  | a :: b :: rest =>
    if a = '-' && b = '-' then squeezeSeparators (b :: rest)
    else a :: squeezeSeparators (b :: rest)

/-- Modelled from the spec (§4.1): strip leading and trailing separators. -/
def dropEdgeSeparators (cs : List Char) : List Char :=
  ((cs.dropWhile (fun c => c = '-')).reverse.dropWhile (fun c => c = '-')).reverse

/-- Modelled from the spec: the title-to-id converter (§4.1) of `module.rs`,
which is not under `src/`.  Lower-cases the title, replaces every run of
non-alphanumeric characters with a single separator and strips leading and
trailing separators.  (Case folding is applied per character, which is the
same as lower-casing the whole title first.) -/
def normalize (title : String) : String :=
  String.mk (dropEdgeSeparators (squeezeSeparators
    (title.data.map (fun c =>
      let lc := c.toLower
      if lc.isAlphanum then lc else '-'))))

/-- Modelled from the spec (§3): the fixed file-name prefix of each module
type. -/
def ModuleType.prefix_str : ModuleType → String
  | .Assembly => "assembly_"
  | .Concept => "con_"
  | .Procedure => "proc_"
  | .Reference => "ref_"
  | .Snippet => "snip_"

/-- Modelled from the spec (§6): the fixed extension of generated module
files under the documentation convention. -/
def moduleExtension : String := ".adoc"

/-- Modelled from the spec (§3, §4.3): the id derived from a title — the
normalized title, carrying the module-type prefix when the `prefixes`
option is enabled. -/
def moduleId (module_type : ModuleType) (title : String) (options : Options) : String :=
  (if options.prefixes then module_type.prefix_str else "") ++ normalize title

/-- Modelled from the spec (§3, §4.3): the literal include directive another
module would use to reference the module with the given id. -/
def include_statement_for (id : String) : String :=
  "include::" ++ id ++ moduleExtension ++ "[leveloffset=+1]"

/-- Translated from `src/lib.rs` line 11 and modelled from the spec (§3):
the in-memory module entity of `module.rs`, which is not under `src/`. -/
structure Module where
  module_type : ModuleType
  title : String
  id : String
  content : String
  include_statement : String
deriving DecidableEq, Repr

/-- Modelled from the spec: the template renderer (§4.2) of `templating.rs`,
which is not under `src/`.  A fixed skeleton with toggled comment and
example blocks; for an Assembly with a non-empty include list the include
statements are inserted one per line in the order received. -/
def renderContent (module_type : ModuleType) (id title : String) (options : Options)
    (includes : List String) : String :=
  let anchor := "[id=" ++ id ++ "]\n"
  let heading := "= " ++ title ++ "\n"
  let commentBlock :=
    if options.comments then "// Explanatory scaffolding comments for the author.\n" else ""
  let includeBlock := String.join (includes.map (fun s => s ++ "\n"))
  let exampleBlock :=
    if options.examples then "// Example block for " ++ module_type.prefix_str ++ "\n" else ""
  anchor ++ heading ++ commentBlock ++ includeBlock ++ exampleBlock

/-- Modelled from the spec (§3, §4.3): the transient `Input` value object of
`module.rs`, which is not under `src/`. -/
structure Input where
  module_type : ModuleType
  title : String
  options : Options
  includes : Option (List String)

/-- Modelled from the spec (§4.3): `Input::new`. -/
def Input.new (module_type : ModuleType) (title : String) (options : Options) : Input :=
  { module_type := module_type, title := title, options := options, includes := none }

/-- Modelled from the spec (§4.3): the `.include(statements)` builder step of
the populated-assembly path. -/
def Input.include_list (i : Input) (statements : List String) : Input :=
  { i with includes := some statements }

/-- Modelled from the spec (§4.3): the `.into()` conversion of an `Input`
into a `Module` — derives the id via §4.1, renders the content via §4.2 and
computes the include statement of the module itself. -/
def Input.into_module (i : Input) : Module :=
  let id := moduleId i.module_type i.title i.options
  { module_type := i.module_type
    title := i.title
    id := id
    content := renderContent i.module_type id i.title i.options (i.includes.getD [])
    include_statement := include_statement_for id }

/-- Modelled from the spec (§4.3): `Module::new(module_type, title, options)` —
pure construction, no include list. -/
def Module.new (module_type : ModuleType) (title : String) (options : Options) : Module :=
  (Input.new module_type title options).into_module

/-- Modelled from the spec (§4.3): the populated-assembly construction
`Input::new(ModuleType::Assembly, title, &options).include(include_statements).into()`
at `src/lib.rs` lines 103-105. -/
def populatedAssembly (title : String) (options : Options) (statements : List String) : Module :=
  ((Input.new ModuleType.Assembly title options).include_list statements).into_module

/-- Modelled from the spec (§4.4, §7): the individual naming-rule violations
the name validator can report for one file. -/
inductive Issue where
  | wrongExtension
  | badCharacter
  | consecutiveSeparators
  | edgeSeparator
  | unprefixedName
deriving DecidableEq, Repr

/-- Helper for the name validator: whether the character list contains two
adjacent separator characters. -/
def hasConsecutiveSeparators : List Char → Bool
  | [] => false
  | [_] => false
  | a :: b :: rest =>
    (a = '-' && b = '-') || hasConsecutiveSeparators (b :: rest)

namespace validation

/-- Modelled from the spec: the name validator (§4.4) of `validation.rs`,
which is not under `src/`.  All applicable violations for the file are
surfaced, not just the first (§4.4), and naming-rule failures are reported
rather than raised as errors, so they do not abort the run (§7:
ValidationFailure is collected and reported per file). -/
def validate (fileName : String) : List Issue :=
  let cs := fileName.data
  let ext := moduleExtension.data
  let hasExt := ext.isSuffixOf cs
  let stem := if hasExt then cs.take (cs.length - ext.length) else cs
  (if hasExt then [] else [Issue.wrongExtension]) ++
  (if stem.all (fun c => c.isLower || c.isDigit || c = '-' || c = '_') then []
   else [Issue.badCharacter]) ++
  (if hasConsecutiveSeparators stem then [Issue.consecutiveSeparators] else []) ++
  (if stem.head? = some '-' || stem.getLast? = some '-' then [Issue.edgeSeparator]
   else []) ++
  (if [ModuleType.Assembly, ModuleType.Concept, ModuleType.Procedure,
       ModuleType.Reference, ModuleType.Snippet].any
        (fun mt => mt.prefix_str.data.isPrefixOf stem) then []
   else [Issue.unprefixedName])

end validation

/-- Modelled from `src/lib.rs` line 127: the inline `match` of
`process_module_type` mapping a module-type token to its `ModuleType`.  The
`unimplemented!` arm is modelled as `none`. -/
def module_type_from_str (s : String) : Option ModuleType :=
  if s = "assembly" ∨ s = "include-in" then some ModuleType.Assembly
  else if s = "concept" then some ModuleType.Concept
  else if s = "procedure" then some ModuleType.Procedure
  else if s = "reference" then some ModuleType.Reference
  else if s = "snippet" then some ModuleType.Snippet
  else none

/-- Translated from `src/lib.rs` lines 122-139 (`process_module_type`): build
one `Module` per title, in the order the titles were given.  `none` models
the `unimplemented!` panic on an unrecognized token. -/
def process_module_type (titles : List String) (module_type_str : String)
    (options : Options) : Option (List Module) :=
  (module_type_from_str module_type_str).map
    (fun module_type => titles.map (fun title => Module.new module_type title options))

/-- The ways the embedded `run` can fail: a failed `write_file` call on the
given module (`?` propagation at `src/lib.rs` lines 86 and 107), the
`unimplemented!` panic of `process_module_type`, and the `assert!` at
`src/lib.rs` line 100. -/
inductive RunError where
  | ioError : Module → RunError
  | panicUnimplemented : String → RunError
  | panicAssertIncludesEmpty : RunError
deriving DecidableEq, Repr

/-- The observable outcome of the embedded `run`: the modules successfully
written to disk in order, the validation report of each file name given to
`validate` in order, and the returned `Result`. -/
structure RunResult where
  writes : List Module
  reports : List (String × List Issue)
  outcome : Except RunError Unit
deriving Repr

/-- The collect phase of `run` (`src/lib.rs` lines 74-82): fold over the
fixed list of module-type tokens, appending the modules of each present
flag.  An `unimplemented!` panic in `process_module_type` is propagated as
an error. -/
def collect_modules_go (options : Options) (args : ArgMatches) :
    List String → Except RunError (List Module)
  | [] => Except.ok []
  | s :: rest =>
    match args.values_of s with
    | none => collect_modules_go options args rest
    | some titles =>
      match process_module_type titles s options with
      | none => Except.error (RunError.panicUnimplemented s)
      | some mods => (collect_modules_go options args rest).map (fun more => mods ++ more)

/-- The collect phase of `run` over the literal token list of
`src/lib.rs` line 74. -/
def collect_modules (args : ArgMatches) (options : Options) :
    Except RunError (List Module) :=
  collect_modules_go options args ["assembly", "concept", "procedure", "reference", "snippet"]

/-- The write loop of `run` (`src/lib.rs` lines 85-87) under the `writeOk`
oracle: returns the modules written before the first failure, and the first
module whose write failed, if any. -/
def writeSeq (writeOk : Module → Bool) : List Module → List Module × Option Module
  | [] => ([], none)
  | m :: rest =>
    if writeOk m then
      let (written, failed) := writeSeq writeOk rest
      (m :: written, failed)
    else ([], some m)

/-- The validation phase of `run` (`src/lib.rs` lines 111-115): one report
per listed file, in order.  The modelled validator reports naming-rule
failures instead of raising them (spec §7), so the loop reaches every file. -/
def finishValidation (args : ArgMatches) (written : List Module) : RunResult :=
  match args.validate with
  | some files =>
    { writes := written
      reports := files.map (fun f => (f, validation.validate f))
      outcome := Except.ok () }
  | none => { writes := written, reports := [], outcome := Except.ok () }

/-- The populated-assembly phase and validation phase of `run`
(`src/lib.rs` lines 92-115), entered after every non-populated module was
written successfully. -/
def afterWrites (options : Options) (args : ArgMatches) (writeOk : Module → Bool)
    (nonPopulated written : List Module) : RunResult :=
  match args.includeIn with
  | none => finishValidation args written
  | some title =>
    let include_statements := nonPopulated.map (fun m => m.include_statement)
    if include_statements.isEmpty then
      { writes := written, reports := [], outcome := Except.error RunError.panicAssertIncludesEmpty }
    else
      let populated := populatedAssembly title options include_statements
      if writeOk populated then finishValidation args (written ++ [populated])
      else
        { writes := written, reports := []
          outcome := Except.error (RunError.ioError populated) }

/-- The write phase of `run` (`src/lib.rs` lines 85-87) and everything after
it: the first failed write aborts the run with that error. -/
def afterCollect (options : Options) (args : ArgMatches) (writeOk : Module → Bool)
    (nonPopulated : List Module) : RunResult :=
  match writeSeq writeOk nonPopulated with
  | (written, some m) =>
    { writes := written, reports := [], outcome := Except.error (RunError.ioError m) }
  | (written, none) => afterWrites options args writeOk nonPopulated written

/-- Translated from `src/lib.rs` lines 63-118 (`run`).  The `writeOk` oracle
makes the success of each `write_file` call explicit; logging initialization
is out of scope per spec §1 and modelled as succeeding. -/
def run (options : Options) (args : ArgMatches) (writeOk : Module → Bool) : RunResult :=
  match collect_modules args options with
  | Except.error e => { writes := [], reports := [], outcome := Except.error e }
  | Except.ok nonPopulated => afterCollect options args writeOk nonPopulated

/-- The modules whose include statements are gathered at
`src/lib.rs` lines 94-97 when an `include-in` title is present: the
non-populated modules of the collect phase. -/
def runContributors (options : Options) (args : ArgMatches) : List Module :=
  match collect_modules args options with
  | Except.ok mods => mods
  | Except.error _ => []

/-- The modules the collect phase produces for one module-type flag. -/
def modulesFor (module_type : ModuleType) (titles : Option (List String))
    (options : Options) : List Module :=
  (titles.getD []).map (fun title => Module.new module_type title options)

/-- The collect-phase result spelled out: the five flags in the fixed
iteration order of `src/lib.rs` line 74, each contributing its titles in
command-line order. -/
def expectedModules (args : ArgMatches) (options : Options) : List Module :=
  modulesFor ModuleType.Assembly args.assembly options ++
  modulesFor ModuleType.Concept args.concept options ++
  modulesFor ModuleType.Procedure args.procedure options ++
  modulesFor ModuleType.Reference args.reference options ++
  modulesFor ModuleType.Snippet args.snippet options

/-- All titles given to the five module-type flags, in iteration order. -/
def allTitles (args : ArgMatches) : List String :=
  args.assembly.getD [] ++ args.concept.getD [] ++ args.procedure.getD [] ++
  args.reference.getD [] ++ args.snippet.getD []

theorem values_of_assembly (args : ArgMatches) :
    args.values_of "assembly" = args.assembly := rfl

theorem values_of_concept (args : ArgMatches) :
    args.values_of "concept" = args.concept := rfl

theorem values_of_procedure (args : ArgMatches) :
    args.values_of "procedure" = args.procedure := rfl

theorem values_of_reference (args : ArgMatches) :
    args.values_of "reference" = args.reference := rfl

theorem values_of_snippet (args : ArgMatches) :
    args.values_of "snippet" = args.snippet := rfl

theorem process_assembly (titles : List String) (options : Options) :
    process_module_type titles "assembly" options =
      some (titles.map (fun t => Module.new ModuleType.Assembly t options)) := rfl

theorem process_concept (titles : List String) (options : Options) :
    process_module_type titles "concept" options =
      some (titles.map (fun t => Module.new ModuleType.Concept t options)) := rfl

theorem process_procedure (titles : List String) (options : Options) :
    process_module_type titles "procedure" options =
      some (titles.map (fun t => Module.new ModuleType.Procedure t options)) := rfl

theorem process_reference (titles : List String) (options : Options) :
    process_module_type titles "reference" options =
      some (titles.map (fun t => Module.new ModuleType.Reference t options)) := rfl

theorem process_snippet (titles : List String) (options : Options) :
    process_module_type titles "snippet" options =
      some (titles.map (fun t => Module.new ModuleType.Snippet t options)) := rfl

/-- The collect phase never panics and produces exactly the spelled-out
module list, in the fixed iteration order. -/
theorem collect_modules_eq (args : ArgMatches) (options : Options) :
    collect_modules args options = Except.ok (expectedModules args options) := by
  obtain ⟨v, q, nc, np, ne, td, oa, oc, op, orf, os, oi, ov⟩ := args
  unfold collect_modules
  simp only [collect_modules_go, values_of_assembly, values_of_concept,
    values_of_procedure, values_of_reference, values_of_snippet,
    process_assembly, process_concept, process_procedure, process_reference,
    process_snippet]
  cases oa <;> cases oc <;> cases op <;> cases orf <;> cases os <;>
    simp [expectedModules, modulesFor, Except.map]

theorem run_eq (args : ArgMatches) (options : Options) (writeOk : Module → Bool) :
    run options args writeOk = afterCollect options args writeOk (expectedModules args options) := by
  unfold run
  rw [collect_modules_eq]

theorem runContributors_eq (options : Options) (args : ArgMatches) :
    runContributors options args = expectedModules args options := by
  unfold runContributors
  rw [collect_modules_eq]

theorem writeSeq_all_ok (writeOk : Module → Bool) :
    ∀ l : List Module, (∀ m ∈ l, writeOk m = true) → writeSeq writeOk l = (l, none) := by
  intro l
  induction l with
  | nil => intro _; rfl
  | cons m rest ih =>
    intro h
    have hm : writeOk m = true := h m (by simp)
    have hr := ih (fun x hx => h x (by simp [hx]))
    simp [writeSeq, hm, hr]

theorem writeSeq_first_fail (writeOk : Module → Bool) (m : Module)
    (hm : writeOk m = false) :
    ∀ pre post : List Module, (∀ x ∈ pre, writeOk x = true) →
      writeSeq writeOk (pre ++ m :: post) = (pre, some m) := by
  intro pre
  induction pre with
  | nil => intro post _; simp [writeSeq, hm]
  | cons a t ih =>
    intro post h
    have ha : writeOk a = true := h a (by simp)
    have ht := ih post (fun x hx => h x (by simp [hx]))
    simp [writeSeq, ha, ht]

theorem afterCollect_all_ok (options : Options) (args : ArgMatches)
    (writeOk : Module → Bool) (l : List Module) (h : ∀ m ∈ l, writeOk m = true) :
    afterCollect options args writeOk l = afterWrites options args writeOk l l := by
  unfold afterCollect
  rw [writeSeq_all_ok writeOk l h]

theorem expectedModules_eq_nil_iff (args : ArgMatches) (options : Options) :
    expectedModules args options = [] ↔ allTitles args = [] := by
  simp [expectedModules, modulesFor, allTitles]

/-- Claim C6: for every parsed command invocation (clap guarantees that
`verbose` and `quiet` are mutually exclusive, `src/lib.rs` lines 28-29),
`Options::new` returns `comments`, `prefixes` and `examples` equal to `true`
exactly when the corresponding no-flag is absent, `target_dir` equal to the
given `target-dir` value or `"."` when absent, and verbosity `Verbose` when
`verbose` is present, `Quiet` when `quiet` is present, and `Default` when
neither is. -/
theorem options_new_fields (args : ArgMatches)
    (h : ¬(args.verbose = true ∧ args.quiet = true)) :
    (Options.new args).comments = !args.noComments ∧
    (Options.new args).prefixes = !args.noPrefixes ∧
    (Options.new args).examples = !args.noExamples ∧
    (Options.new args).target_dir = args.targetDir.getD "." ∧
    ((Options.new args).verbosity = Verbosity.Verbose ↔ args.verbose = true) ∧
    ((Options.new args).verbosity = Verbosity.Quiet ↔ args.quiet = true) ∧
    ((Options.new args).verbosity = Verbosity.Default ↔
      (args.verbose = false ∧ args.quiet = false)) := by
  obtain ⟨v, q, nc, np, ne, td, oa, oc, op, orf, os, oi, ov⟩ := args
  cases v <;> cases q <;> cases td <;> simp_all [Options.new, Option.getD]

/-- A concrete invocation exercising `options_new_fields`: `quiet` and
`no-comments` present, `target-dir` set to `"out"`. -/
def argsC6 : ArgMatches :=
  { verbose := false, quiet := true, noComments := true, noPrefixes := false
    noExamples := false, targetDir := some "out", assembly := none
    concept := none, procedure := none, reference := none, snippet := none
    includeIn := none, validate := none }

theorem options_new_fields_witness :
    (Options.new argsC6).comments = !argsC6.noComments ∧
    (Options.new argsC6).prefixes = !argsC6.noPrefixes ∧
    (Options.new argsC6).examples = !argsC6.noExamples ∧
    (Options.new argsC6).target_dir = argsC6.targetDir.getD "." ∧
    ((Options.new argsC6).verbosity = Verbosity.Verbose ↔ argsC6.verbose = true) ∧
    ((Options.new argsC6).verbosity = Verbosity.Quiet ↔ argsC6.quiet = true) ∧
    ((Options.new argsC6).verbosity = Verbosity.Default ↔
      (argsC6.verbose = false ∧ argsC6.quiet = false)) :=
  options_new_fields argsC6 (by decide)

/-- Claim C9: when both `verbose` and `quiet` are present (violating the
stated mutual exclusivity), `Options::new` returns verbosity `Verbose`,
because `verbose` is tested first (`src/lib.rs` lines 30-36). -/
theorem options_verbose_precedence (args : ArgMatches)
    (hv : args.verbose = true) (_hq : args.quiet = true) :
    (Options.new args).verbosity = Verbosity.Verbose := by
  simp [Options.new, hv]

/-- A concrete invocation with both `verbose` and `quiet` present. -/
def argsC9 : ArgMatches :=
  { verbose := true, quiet := true, noComments := false, noPrefixes := false
    noExamples := false, targetDir := none, assembly := none
    concept := none, procedure := none, reference := none, snippet := none
    includeIn := none, validate := none }

theorem options_verbose_precedence_witness :
    argsC9.verbose = true ∧ argsC9.quiet = true ∧
    (Options.new argsC9).verbosity = Verbosity.Verbose :=
  ⟨rfl, rfl, options_verbose_precedence argsC9 rfl rfl⟩

/-- Claim C8: `process_module_type` reaches its `unimplemented!` arm
(modelled as `none`) exactly on tokens outside the recognized set
"assembly", "concept", "procedure", "reference", "snippet", "include-in";
on every token `run` can pass, and on "include-in", the panic is
unreachable. -/
theorem process_module_type_unimpl_iff (titles : List String) (options : Options)
    (s : String) :
    process_module_type titles s options = none ↔
      (s ≠ "assembly" ∧ s ≠ "concept" ∧ s ≠ "procedure" ∧
       s ≠ "reference" ∧ s ≠ "snippet" ∧ s ≠ "include-in") := by
  unfold process_module_type module_type_from_str
  split_ifs with h1 h2 h3 h4 h5 <;> simp_all [Option.map] <;> tauto

/-- Claim C10: an invocation with none of the five module-type flags, no
`include-in` and no `validate` returns `Ok(())`, writes no module and
produces no validation report. -/
theorem run_no_flags_noop (options : Options) (writeOk : Module → Bool)
    (args : ArgMatches)
    (h1 : args.assembly = none) (h2 : args.concept = none)
    (h3 : args.procedure = none) (h4 : args.reference = none)
    (h5 : args.snippet = none) (h6 : args.includeIn = none)
    (h7 : args.validate = none) :
    run options args writeOk =
      { writes := [], reports := [], outcome := Except.ok () } := by
  rw [run_eq]
  have hexp : expectedModules args options = [] := by
    simp [expectedModules, modulesFor, h1, h2, h3, h4, h5]
  rw [hexp]
  simp [afterCollect, writeSeq, afterWrites, h6, finishValidation, h7]

/-- A concrete invocation with no flags at all. -/
def argsC10 : ArgMatches :=
  { verbose := false, quiet := false, noComments := false, noPrefixes := false
    noExamples := false, targetDir := none, assembly := none
    concept := none, procedure := none, reference := none, snippet := none
    includeIn := none, validate := none }

theorem run_no_flags_noop_witness :
    run (Options.new argsC10) argsC10 (fun _ => true) =
      { writes := [], reports := [], outcome := Except.ok () } :=
  run_no_flags_noop (Options.new argsC10) (fun _ => true) argsC10
    rfl rfl rfl rfl rfl rfl rfl

/-- Claim C5: when the `include-in` flag is present only together with at
least one module-type flag carrying at least one title (the guarantee of
the command-line layer), the `assert!` at `src/lib.rs` line 100 never
fires: the panic branch is unreachable. -/
theorem run_assert_unreachable (options : Options) (args : ArgMatches)
    (writeOk : Module → Bool)
    (h : args.includeIn.isSome = true → allTitles args ≠ []) :
    (run options args writeOk).outcome ≠
      Except.error RunError.panicAssertIncludesEmpty := by
  rw [run_eq]
  unfold afterCollect
  rcases hws : writeSeq writeOk (expectedModules args options) with ⟨written, failed⟩
  cases failed with
  | some m => simp
  | none =>
    unfold afterWrites
    cases hin : args.includeIn with
    | none =>
      unfold finishValidation
      cases args.validate <;> simp
    | some title =>
      have hne : expectedModules args options ≠ [] := by
        intro hnil
        exact h (by simp [hin]) ((expectedModules_eq_nil_iff args options).mp hnil)
      have hstmts :
          ((expectedModules args options).map
            (fun m => m.include_statement)).isEmpty = false := by
        cases hE : expectedModules args options with
        | nil => exact absurd hE hne
        | cons a t => simp
      simp only [hstmts, Bool.false_eq_true, if_false]
      unfold finishValidation
      cases args.validate <;> split <;> simp

/-- A concrete invocation with `include-in` and one concept title. -/
def argsC5 : ArgMatches :=
  { verbose := false, quiet := false, noComments := false, noPrefixes := false
    noExamples := false, targetDir := none, assembly := none
    concept := some ["Alpha"], procedure := none, reference := none
    snippet := none, includeIn := some "My Assembly", validate := none }

theorem run_assert_unreachable_witness :
    argsC5.includeIn.isSome = true ∧
    (run (Options.new argsC5) argsC5 (fun _ => true)).outcome ≠
      Except.error RunError.panicAssertIncludesEmpty :=
  ⟨rfl, run_assert_unreachable (Options.new argsC5) argsC5 (fun _ => true)
    (fun _ => by decide)⟩

/-- Claim C4: during the write phase, the first failing `write_file` call
aborts the run with that error: the modules before the failing one are the
only writes performed (already-written files stay in place, nothing after
the failure is written). -/
theorem run_write_failfast (options : Options) (args : ArgMatches)
    (writeOk : Module → Bool) (pre post : List Module) (m : Module)
    (hsplit : expectedModules args options = pre ++ m :: post)
    (hpre : ∀ x ∈ pre, writeOk x = true)
    (hm : writeOk m = false) :
    (run options args writeOk).outcome = Except.error (RunError.ioError m) ∧
    (run options args writeOk).writes = pre := by
  rw [run_eq, hsplit]
  unfold afterCollect
  rw [writeSeq_first_fail writeOk m hm pre post hpre]
  exact ⟨rfl, rfl⟩

/-- A concrete invocation with two concept titles and an oracle that fails
the write of the second module. -/
def argsC4 : ArgMatches :=
  { verbose := false, quiet := false, noComments := false, noPrefixes := false
    noExamples := false, targetDir := none, assembly := none
    concept := some ["One", "Two"], procedure := none, reference := none
    snippet := none, includeIn := none, validate := none }

/-- Write oracle for the C4 witness: every write succeeds except the module
titled "Two". -/
def writeOkC4 (m : Module) : Bool := !(m.title = "Two")

theorem run_write_failfast_witness :
    writeOkC4 (Module.new ModuleType.Concept "Two" (Options.new argsC4)) = false ∧
    (run (Options.new argsC4) argsC4 writeOkC4).outcome =
      Except.error (RunError.ioError
        (Module.new ModuleType.Concept "Two" (Options.new argsC4))) ∧
    (run (Options.new argsC4) argsC4 writeOkC4).writes =
      [Module.new ModuleType.Concept "One" (Options.new argsC4)] :=
  ⟨by decide,
   (run_write_failfast (Options.new argsC4) argsC4 writeOkC4
      [Module.new ModuleType.Concept "One" (Options.new argsC4)] []
      (Module.new ModuleType.Concept "Two" (Options.new argsC4))
      (by decide) (by decide) (by decide)).1,
   (run_write_failfast (Options.new argsC4) argsC4 writeOkC4
      [Module.new ModuleType.Concept "One" (Options.new argsC4)] []
      (Module.new ModuleType.Concept "Two" (Options.new argsC4))
      (by decide) (by decide) (by decide)).2⟩

theorem run_all_ok_none (options : Options) (args : ArgMatches)
    (writeOk : Module → Bool) (hw : ∀ m, writeOk m = true)
    (hin : args.includeIn = none) :
    run options args writeOk = finishValidation args (expectedModules args options) := by
  rw [run_eq, afterCollect_all_ok options args writeOk _ (fun m _ => hw m)]
  unfold afterWrites
  rw [hin]

theorem run_all_ok_some (options : Options) (args : ArgMatches)
    (writeOk : Module → Bool) (title : String)
    (hw : ∀ m, writeOk m = true) (hin : args.includeIn = some title)
    (hne : expectedModules args options ≠ []) :
    run options args writeOk =
      finishValidation args
        (expectedModules args options ++
          [populatedAssembly title options
            ((expectedModules args options).map (fun m => m.include_statement))]) := by
  rw [run_eq, afterCollect_all_ok options args writeOk _ (fun m _ => hw m)]
  unfold afterWrites
  rw [hin]
  have hstmts :
      ((expectedModules args options).map
        (fun m => m.include_statement)).isEmpty = false := by
    cases hE : expectedModules args options with
    | nil => exact absurd hE hne
    | cons a t => simp
  simp only [hstmts, Bool.false_eq_true, if_false, hw, if_true]

/-- Claim C3: `run` accumulates the constructed modules into one ordered
collection in the fixed flag-iteration order assembly, concept, procedure,
reference, snippet, within each flag in title order; the write sequence
begins with exactly that collection, and when an `include-in` title was
given the populated assembly receives the include statements of that
collection in the same order and is written after it. -/
theorem run_collect_order (args : ArgMatches) (options : Options)
    (writeOk : Module → Bool) (hw : ∀ m, writeOk m = true) :
    collect_modules args options =
      Except.ok
        (modulesFor ModuleType.Assembly args.assembly options ++
         modulesFor ModuleType.Concept args.concept options ++
         modulesFor ModuleType.Procedure args.procedure options ++
         modulesFor ModuleType.Reference args.reference options ++
         modulesFor ModuleType.Snippet args.snippet options) ∧
    expectedModules args options <+: (run options args writeOk).writes ∧
    (∀ title, args.includeIn = some title → expectedModules args options ≠ [] →
      (run options args writeOk).writes =
        expectedModules args options ++
          [populatedAssembly title options
            ((expectedModules args options).map (fun m => m.include_statement))]) := by
  refine ⟨collect_modules_eq args options, ?_, ?_⟩
  · cases hin : args.includeIn with
    | none =>
      rw [run_all_ok_none options args writeOk hw hin]
      unfold finishValidation
      cases args.validate <;> simp
    | some title =>
      by_cases hne : expectedModules args options = []
      · rw [hne]
        simp
      · rw [run_all_ok_some options args writeOk title hw hin hne]
        unfold finishValidation
        cases args.validate <;> simp [List.prefix_append]
  · intro title hin hne
    rw [run_all_ok_some options args writeOk title hw hin hne]
    unfold finishValidation
    cases args.validate <;> simp

/-- A concrete invocation for the C3 witness: one assembly title, one
concept title and an `include-in` title. -/
def argsC3 : ArgMatches :=
  { verbose := false, quiet := false, noComments := false, noPrefixes := false
    noExamples := false, targetDir := none, assembly := some ["First"]
    concept := some ["Second"], procedure := none, reference := none
    snippet := none, includeIn := some "Top", validate := none }

theorem run_collect_order_witness :
    (run (Options.new argsC3) argsC3 (fun _ => true)).writes =
      expectedModules argsC3 (Options.new argsC3) ++
        [populatedAssembly "Top" (Options.new argsC3)
          ((expectedModules argsC3 (Options.new argsC3)).map
            (fun m => m.include_statement))] :=
  (run_collect_order argsC3 (Options.new argsC3) (fun _ => true)
    (fun _ => rfl)).2.2 "Top" rfl (by decide)

/-- Claim C7: with every write succeeding (and the command-line guarantee
for `include-in`), the write sequence of `run` is exactly the collected
modules, each written once in collection order and unchanged from
construction, followed by the populated assembly written at most once and
last; the run returns `Ok(())`. -/
theorem run_writes_each_once (args : ArgMatches) (options : Options)
    (writeOk : Module → Bool)
    (hw : ∀ m, writeOk m = true)
    (hne : args.includeIn.isSome = true → expectedModules args options ≠ []) :
    (run options args writeOk).writes =
      expectedModules args options ++
        (match args.includeIn with
         | some title =>
            [populatedAssembly title options
              ((expectedModules args options).map (fun m => m.include_statement))]
         | none => []) ∧
    (run options args writeOk).outcome = Except.ok () := by
  cases hin : args.includeIn with
  | none =>
    rw [run_all_ok_none options args writeOk hw hin]
    unfold finishValidation
    cases args.validate <;> simp
  | some title =>
    have hne2 := hne (by simp [hin])
    rw [run_all_ok_some options args writeOk title hw hin hne2]
    unfold finishValidation
    cases args.validate <;> simp

/-- A concrete invocation for the C7 witness: two procedure titles and an
`include-in` title. -/
def argsC7 : ArgMatches :=
  { verbose := false, quiet := false, noComments := false, noPrefixes := false
    noExamples := false, targetDir := none, assembly := none
    concept := none, procedure := some ["P One", "P Two"], reference := none
    snippet := none, includeIn := some "All", validate := none }

theorem run_writes_each_once_witness :
    (run (Options.new argsC7) argsC7 (fun _ => true)).writes =
      expectedModules argsC7 (Options.new argsC7) ++
        [populatedAssembly "All" (Options.new argsC7)
          ((expectedModules argsC7 (Options.new argsC7)).map
            (fun m => m.include_statement))] ∧
    (run (Options.new argsC7) argsC7 (fun _ => true)).outcome = Except.ok () := by
  have h := run_writes_each_once argsC7 (Options.new argsC7) (fun _ => true)
    (fun _ => rfl) (fun _ => by decide)
  exact h

/-- Claim C1: when `validate` lists file names and the run reaches the
validation phase, every listed file is validated and reported in order; a
naming-rule failure on one file neither aborts the run nor prevents the
remaining files from being checked, and the run still returns `Ok(())`. -/
theorem run_validation_reports_all (options : Options) (args : ArgMatches)
    (writeOk : Module → Bool) (files : List String)
    (hv : args.validate = some files)
    (hw : ∀ m, writeOk m = true)
    (hne : args.includeIn.isSome = true → expectedModules args options ≠ []) :
    (run options args writeOk).reports =
      files.map (fun f => (f, validation.validate f)) ∧
    (run options args writeOk).outcome = Except.ok () := by
  cases hin : args.includeIn with
  | none =>
    rw [run_all_ok_none options args writeOk hw hin]
    unfold finishValidation
    rw [hv]
    exact ⟨rfl, rfl⟩
  | some title =>
    have hne2 := hne (by simp [hin])
    rw [run_all_ok_some options args writeOk title hw hin hne2]
    unfold finishValidation
    rw [hv]
    exact ⟨rfl, rfl⟩

/-- A concrete invocation for the C1 witness: two files to validate, the
first of which violates several naming rules. -/
def argsC1 : ArgMatches :=
  { verbose := false, quiet := false, noComments := false, noPrefixes := false
    noExamples := false, targetDir := none, assembly := none
    concept := some ["Alpha"], procedure := none, reference := none
    snippet := none, includeIn := none
    validate := some ["BAD.txt", "con_alpha.adoc"] }

theorem run_validation_reports_all_witness :
    validation.validate "BAD.txt" ≠ [] ∧
    (run (Options.new argsC1) argsC1 (fun _ => true)).reports =
      ["BAD.txt", "con_alpha.adoc"].map (fun f => (f, validation.validate f)) ∧
    (run (Options.new argsC1) argsC1 (fun _ => true)).outcome = Except.ok () :=
  ⟨by decide,
   (run_validation_reports_all (Options.new argsC1) argsC1 (fun _ => true)
      ["BAD.txt", "con_alpha.adoc"] rfl (fun _ => rfl)
      (fun h => absurd h (by decide))).1,
   (run_validation_reports_all (Options.new argsC1) argsC1 (fun _ => true)
      ["BAD.txt", "con_alpha.adoc"] rfl (fun _ => rfl)
      (fun h => absurd h (by decide))).2⟩

theorem Module.new_module_type (module_type : ModuleType) (title : String)
    (options : Options) :
    (Module.new module_type title options).module_type = module_type := rfl

/-- Concrete invocation refuting claim C2: an assembly module requested via
the assembly flag together with `include-in`. -/
def argsC2 : ArgMatches :=
  { verbose := false, quiet := false, noComments := false, noPrefixes := false
    noExamples := false, targetDir := none, assembly := some ["Foo"]
    concept := none, procedure := none, reference := none, snippet := none
    includeIn := some "Baz", validate := none }

/-- Claim C2 counterexample: with `--assembly Foo --include-in Baz`, the
module list whose include statements are gathered for the populated
assembly contains a module of type Assembly, that module's include
statement is in the gathered list, and the populated assembly written last
receives exactly that list: an assembly-as-include does occur. -/
theorem run_assembly_include_counterexample :
    argsC2.includeIn.isSome = true ∧
    Module.new ModuleType.Assembly "Foo" (Options.new argsC2) ∈
      runContributors (Options.new argsC2) argsC2 ∧
    (Module.new ModuleType.Assembly "Foo" (Options.new argsC2)).module_type =
      ModuleType.Assembly ∧
    (Module.new ModuleType.Assembly "Foo" (Options.new argsC2)).include_statement ∈
      (runContributors (Options.new argsC2) argsC2).map
        (fun m => m.include_statement) ∧
    (run (Options.new argsC2) argsC2 (fun _ => true)).writes.getLast? =
      some (populatedAssembly "Baz" (Options.new argsC2)
        [(Module.new ModuleType.Assembly "Foo" (Options.new argsC2)).include_statement]) := by
  refine ⟨rfl, ?_, rfl, ?_, ?_⟩ <;> decide

/-- Claim C2 amended: include statements contributed by Assembly-typed
modules do occur whenever the assembly flag itself is used together with
`include-in`; the guarantee holds only for invocations without the assembly
flag — then no module in the gathered list has type Assembly. -/
theorem run_no_assembly_flag_no_assembly_contributors (options : Options)
    (args : ArgMatches) (h : args.assembly = none) :
    ∀ m, m ∈ runContributors options args → m.module_type ≠ ModuleType.Assembly := by
  intro m hm
  rw [runContributors_eq] at hm
  unfold expectedModules modulesFor at hm
  rw [h] at hm
  simp only [Option.getD_none, List.map_nil, List.nil_append, List.mem_append,
    List.mem_map] at hm
  rcases hm with ((⟨t, _, rfl⟩ | ⟨t, _, rfl⟩) | ⟨t, _, rfl⟩) | ⟨t, _, rfl⟩ <;>
    simp [Module.new_module_type]

/-- A concrete invocation for the amended C2 witness: no assembly flag, one
concept title, an `include-in` title. -/
def argsC2a : ArgMatches :=
  { verbose := false, quiet := false, noComments := false, noPrefixes := false
    noExamples := false, targetDir := none, assembly := none
    concept := some ["Bar"], procedure := none, reference := none
    snippet := none, includeIn := some "Baz", validate := none }

theorem run_no_assembly_flag_no_assembly_contributors_witness :
    argsC2a.assembly = none ∧
    (Module.new ModuleType.Concept "Bar" (Options.new argsC2a)).module_type ≠
      ModuleType.Assembly :=
  ⟨rfl, run_no_assembly_flag_no_assembly_contributors (Options.new argsC2a) argsC2a
    rfl (Module.new ModuleType.Concept "Bar" (Options.new argsC2a)) (by decide)⟩

end Newdoc

